import Mathlib

/-!
Verification of the NOVA STUDIO DAW websocket host against its design
specification.  The definitions below are shallow embeddings of the C++
sources: `WebSocketServer.cpp` (frame codec, handshake, connection
acceptance), `PluginManager.cpp` / `PluginManager.h` (session/slot
registry) and `MainComponent.cpp` (message handlers, UI push scheduler).
Bytes are modelled as `Nat` (values below 256 on real wires), strings as
`List Char`, and JUCE containers as Lean lists.
-/

namespace Nova

/-! ### Frame codec, from `WebSocketServer.cpp` -/

/-- Payload-extraction tail of `WebSocketServer::decodeWebSocketFrame`
(lines 304-327): optional 4-byte mask key at `offset`, total-length
check, then the byte-by-byte copy loop with `maskKey[i % 4]` XOR when
masked.  Returns `[]` (the empty `juce::String`) on a short buffer. -/
def decodePayload (data : List Nat) (offset payloadLength : Nat) (masked : Bool) : List Nat :=
  if masked then
    if data.length < offset + 4 then []
    else
      let maskKey := (data.drop offset).take 4
      if data.length < (offset + 4) + payloadLength then []
      else (List.range payloadLength).map
        (fun i => (data.getD (offset + 4 + i) 0) ^^^ maskKey.getD (i % 4) 0)
  else
    if data.length < offset + payloadLength then []
    else (List.range payloadLength).map (fun i => data.getD (offset + i) 0)

/-- Embedding of `WebSocketServer::decodeWebSocketFrame` (lines 271-328).  The
`length < 2` early return is the wildcard arm; byte 0 supplies the
opcode nibble, byte 1 the mask bit and 7-bit length, with the 16-bit
(marker 126) and truncated 64-bit (marker 127, bytes 6-9 only) extended
length forms. -/
def decodeWebSocketFrame : List Nat → List Nat
  | data@(firstByte :: secondByte :: _) =>
    if (firstByte &&& 15) ≠ 1 ∧ (firstByte &&& 15) ≠ 2 then []
    else
      let masked := (secondByte &&& 128) != 0
      let payloadLength := secondByte &&& 127
      if payloadLength = 126 then
        if data.length < 4 then []
        else decodePayload data 4 (((data.getD 2 0) <<< 8) ||| data.getD 3 0) masked
      else if payloadLength = 127 then
        if data.length < 10 then []
        else decodePayload data 10
          (((data.getD 6 0) <<< 24) ||| ((data.getD 7 0) <<< 16) |||
            ((data.getD 8 0) <<< 8) ||| data.getD 9 0) masked
      else decodePayload data 2 payloadLength masked
  | _ => []

/-- Embedding of `WebSocketServer::sendWebSocketFrame` (lines 357-394): FIN+text
header byte 0x81, then the 7-bit / 16-bit / 64-bit big-endian length
encoding (the `(char)` casts are the `% 256` / `&&& 255` truncations),
then the unmasked payload. -/
def sendWebSocketFrame (message : List Nat) : List Nat :=
  let length := message.length
  if length < 126 then
    129 :: (length :: message)
  else if length < 65536 then
    129 :: (126 :: (((length >>> 8) % 256) :: ((length &&& 255) :: message)))
  else
    129 :: (127 :: (((List.range 8).map (fun j => (length >>> ((7 - j) * 8)) &&& 255)) ++ message))

/-- XOR-mask a payload with a (4-byte) key, `maskKey[i % 4]` convention
of RFC6455 as read by `decodeWebSocketFrame`. -/
def maskPayload (key message : List Nat) : List Nat :=
  (List.range message.length).map (fun i => message.getD i 0 ^^^ key.getD (i % 4) 0)

/-- Test-input constructor: the wire frame a masking client sends for a
text payload, laid out exactly as `decodeWebSocketFrame` expects it —
the mask bit set in byte 1, the 4-byte key after the length field, and
the payload XOR-masked with that key. -/
def maskedClientFrame (key message : List Nat) : List Nat :=
  let length := message.length
  if length < 126 then
    129 :: ((128 + length) :: (key ++ maskPayload key message))
  else if length < 65536 then
    129 :: (254 :: (((length >>> 8) % 256) :: ((length &&& 255) :: (key ++ maskPayload key message))))
  else
    129 :: (255 :: (((List.range 8).map (fun j => (length >>> ((7 - j) * 8)) &&& 255))
      ++ (key ++ maskPayload key message)))

example : decodeWebSocketFrame (sendWebSocketFrame [72, 105]) = [72, 105] := by decide
example : decodeWebSocketFrame (maskedClientFrame [1, 2, 3, 4] [72, 105]) = [72, 105] := by decide
example : sendWebSocketFrame [] = [129, 0] := by decide
example : decodeWebSocketFrame [1, 1, 65] = [65] := by decide

/-! ### Bitwise helper lemmas -/

theorem land127_eq_mod (b : Nat) : b &&& 127 = b % 128 := by
  have h := Nat.and_pow_two_sub_one_eq_mod b 7
  norm_num at h
  exact h

theorem land255_eq_mod (b : Nat) : b &&& 255 = b % 256 := by
  have h := Nat.and_pow_two_sub_one_eq_mod b 8
  norm_num at h
  exact h

theorem land128_of_lt {b : Nat} (h : b < 128) : b &&& 128 = 0 := by
  apply Nat.eq_of_testBit_eq
  intro i
  simp only [Nat.testBit_and, Nat.zero_testBit]
  by_cases hi : i = 7
  · subst hi
    have hb : b.testBit 7 = false := Nat.testBit_lt_two_pow (by norm_num at h ⊢; omega)
    simp [hb]
  · have h128 : (128 : Nat).testBit i = false := by
      have ht : ((2 : Nat) ^ 7).testBit i = false := Nat.testBit_two_pow_of_ne (Ne.symm hi)
      norm_num at ht
      exact ht
    simp [h128]

theorem land128_add {b : Nat} (h : b < 128) : (128 + b) &&& 128 = 128 := by
  apply Nat.eq_of_testBit_eq
  intro i
  simp only [Nat.testBit_and]
  by_cases hi : i = 7
  · subst hi
    have hb : b.testBit 7 = false := Nat.testBit_lt_two_pow (by norm_num; omega)
    have hadd : ((128 : Nat) + b).testBit 7 = true := by
      have ht := Nat.testBit_two_pow_add_eq b 7
      norm_num at ht
      rw [ht, hb]
      rfl
    rw [hadd]
    decide
  · have h128 : (128 : Nat).testBit i = false := by
      have ht : ((2 : Nat) ^ 7).testBit i = false := Nat.testBit_two_pow_of_ne (Ne.symm hi)
      norm_num at ht
      exact ht
    simp [h128]

theorem shiftLeft8_lor (x y : Nat) (hy : y < 256) : ((x <<< 8) ||| y) = x * 256 + y := by
  have hy' : y < 2 ^ 8 := by norm_num; omega
  have h2 := Nat.mul_add_lt_is_or hy' x
  rw [Nat.shiftLeft_eq]
  calc x * 2 ^ 8 ||| y = 2 ^ 8 * x ||| y := by rw [Nat.mul_comm]
    _ = 2 ^ 8 * x + y := h2.symm
    _ = x * 256 + y := by norm_num [Nat.mul_comm]

/-! ### List helper lemmas -/

theorem getD_append_right_self (pre l : List Nat) (i : Nat) :
    (pre ++ l).getD (pre.length + i) 0 = l.getD i 0 := by
  rw [List.getD_eq_getElem?_getD, List.getD_eq_getElem?_getD,
    List.getElem?_append_right (Nat.le_add_right pre.length i),
    Nat.add_sub_cancel_left]

theorem range_map_getD (l : List Nat) : (List.range l.length).map (fun i => l.getD i 0) = l := by
  induction l with
  | nil => rfl
  | cons a t ih =>
    rw [List.length_cons, List.range_succ_eq_map, List.map_cons, List.map_map]
    refine congrArg₂ List.cons rfl ?_
    have hc : ((fun i => (a :: t).getD i 0) ∘ Nat.succ) = fun i => t.getD i 0 := by
      funext i
      simp
    rw [hc, ih]

theorem range_map_getD_append (pre m : List Nat) (off : Nat) (hoff : pre.length = off) :
    (List.range m.length).map (fun i => (pre ++ m).getD (off + i) 0) = m := by
  subst hoff
  calc (List.range m.length).map (fun i => (pre ++ m).getD (pre.length + i) 0)
      = (List.range m.length).map (fun i => m.getD i 0) := by
        refine List.map_congr_left ?_
        intro i _
        exact getD_append_right_self pre m i
    _ = m := range_map_getD m

theorem getD_map_range {n : Nat} (f : Nat → Nat) {i : Nat} (h : i < n) :
    ((List.range n).map f).getD i 0 = f i := by
  rw [List.getD_eq_getElem?_getD, List.getElem?_map, List.getElem?_range h]
  rfl

/-! ### Decode-of-encode lemmas for the frame codec -/

theorem decodePayload_unmasked (pre m : List Nat) (off : Nat) (hoff : pre.length = off) :
    decodePayload (pre ++ m) off m.length false = m := by
  unfold decodePayload
  have hlen : (pre ++ m).length = off + m.length := by simp [hoff]
  simp only [Bool.false_eq_true, if_false, hlen, Nat.lt_irrefl]
  exact range_map_getD_append pre m off hoff

theorem decodePayload_masked (pre key m : List Nat) (off : Nat)
    (hoff : pre.length = off) (hkey : key.length = 4) :
    decodePayload (pre ++ (key ++ maskPayload key m)) off m.length true = m := by
  unfold decodePayload
  have hmp : (maskPayload key m).length = m.length := by simp [maskPayload]
  have hlen : (pre ++ (key ++ maskPayload key m)).length = off + 4 + m.length := by
    simp [hoff, hkey, hmp]
    omega
  have hdrop : ((pre ++ (key ++ maskPayload key m)).drop off).take 4 = key := by
    rw [List.drop_left' hoff, List.take_left' hkey]
  simp only [if_true, hlen, hdrop]
  rw [if_neg (by omega), if_neg (by omega)]
  have hassoc : pre ++ (key ++ maskPayload key m) = (pre ++ key) ++ maskPayload key m :=
    (List.append_assoc pre key (maskPayload key m)).symm
  have hpk : (pre ++ key).length = off + 4 := by simp [hoff, hkey]
  calc (List.range m.length).map
        (fun i => (pre ++ (key ++ maskPayload key m)).getD (off + 4 + i) 0 ^^^ key.getD (i % 4) 0)
      = (List.range m.length).map (fun i => m.getD i 0) := by
        refine List.map_congr_left ?_
        intro i hi
        rw [hassoc, ← hpk, getD_append_right_self]
        rw [maskPayload, getD_map_range _ (List.mem_range.mp hi)]
        exact Nat.xor_cancel_right _ _
    _ = m := range_map_getD m

theorem decode_encode_small {m : List Nat} (h : m.length < 126) :
    decodeWebSocketFrame (sendWebSocketFrame m) = m := by
  have henc : sendWebSocketFrame m = 129 :: (m.length :: m) := by
    unfold sendWebSocketFrame
    rw [if_pos h]
  rw [henc]
  have h129 : ((129 : Nat) &&& 15) = 1 := by decide
  have hmask : ((m.length &&& 128) != 0) = false := by
    rw [land128_of_lt (by omega)]
    rfl
  have hpl : m.length &&& 127 = m.length := by
    rw [land127_eq_mod]
    omega
  simp only [decodeWebSocketFrame, h129, hmask, hpl]
  rw [if_neg (by simp), if_neg (by omega), if_neg (by omega)]
  exact decodePayload_unmasked [129, m.length] m 2 rfl

theorem decode_encode_mid {m : List Nat} (h1 : 126 ≤ m.length) (h2 : m.length < 65536) :
    decodeWebSocketFrame (sendWebSocketFrame m) = m := by
  have henc : sendWebSocketFrame m
      = 129 :: (126 :: (((m.length >>> 8) % 256) :: ((m.length &&& 255) :: m))) := by
    unfold sendWebSocketFrame
    rw [if_neg (by omega), if_pos h2]
  rw [henc]
  have hd2 : (m.length >>> 8) % 256 = m.length / 256 := by
    rw [Nat.shiftRight_eq_div_pow]
    norm_num
    omega
  have hd3 : m.length &&& 255 = m.length % 256 := land255_eq_mod m.length
  have hor : ((m.length / 256) <<< 8) ||| (m.length % 256) = m.length := by
    rw [shiftLeft8_lor _ _ (Nat.mod_lt _ (by norm_num))]
    omega
  simp only [decodeWebSocketFrame]
  rw [if_neg (show ¬(((129 : Nat) &&& 15) ≠ 1 ∧ ((129 : Nat) &&& 15) ≠ 2) from by decide)]
  rw [if_pos (show ((126 : Nat) &&& 127) = 126 from by decide)]
  rw [if_neg (show ¬((129 :: (126 :: (((m.length >>> 8) % 256)
    :: ((m.length &&& 255) :: m)))).length < 4) from by simp)]
  rw [show (((126 : Nat) &&& 128) != 0) = false from by decide]
  show decodePayload (129 :: (126 :: (((m.length >>> 8) % 256) :: ((m.length &&& 255) :: m)))) 4
    ((((m.length >>> 8) % 256) <<< 8) ||| (m.length &&& 255)) false = m
  rw [hd2, hd3, hor]
  exact decodePayload_unmasked [129, 126, m.length / 256, m.length % 256] m 4 rfl

theorem decode_encode_65536 {m : List Nat} (h : m.length = 65536) :
    decodeWebSocketFrame (sendWebSocketFrame m) = m := by
  have henc : sendWebSocketFrame m
      = [129, 127, 0, 0, 0, 0, 0, 1, 0, 0] ++ m := by
    unfold sendWebSocketFrame
    rw [if_neg (by omega), if_neg (by omega), h]
    rfl
  rw [henc]
  show decodeWebSocketFrame (129 :: (127 :: ((0 : Nat) :: (0 : Nat) :: (0 : Nat) :: (0 : Nat)
    :: (0 : Nat) :: (1 : Nat) :: (0 : Nat) :: (0 : Nat) :: m))) = m
  simp only [decodeWebSocketFrame]
  rw [if_neg (show ¬(((129 : Nat) &&& 15) ≠ 1 ∧ ((129 : Nat) &&& 15) ≠ 2) from by decide)]
  rw [if_neg (show ¬(((127 : Nat) &&& 127) = 126) from by decide)]
  rw [if_pos (show ((127 : Nat) &&& 127) = 127 from by decide)]
  rw [if_neg (show ¬((129 :: (127 :: ((0 : Nat) :: (0 : Nat) :: (0 : Nat) :: (0 : Nat)
    :: (0 : Nat) :: (1 : Nat) :: (0 : Nat) :: (0 : Nat) :: m))).length < 10) from by simp)]
  rw [show (((127 : Nat) &&& 128) != 0) = false from by decide]
  show decodePayload (129 :: (127 :: ((0 : Nat) :: (0 : Nat) :: (0 : Nat) :: (0 : Nat)
    :: (0 : Nat) :: (1 : Nat) :: (0 : Nat) :: (0 : Nat) :: m))) 10
    (((0 : Nat) <<< 24) ||| ((1 : Nat) <<< 16) ||| ((0 : Nat) <<< 8) ||| 0) false = m
  rw [show (((0 : Nat) <<< 24) ||| ((1 : Nat) <<< 16) ||| ((0 : Nat) <<< 8) ||| 0) = 65536 from by
    decide]
  rw [← h]
  exact decodePayload_unmasked [129, 127, 0, 0, 0, 0, 0, 1, 0, 0] m 10 rfl

theorem decode_masked_small {key m : List Nat} (h : m.length < 126) (hkey : key.length = 4) :
    decodeWebSocketFrame (maskedClientFrame key m) = m := by
  have henc : maskedClientFrame key m
      = 129 :: ((128 + m.length) :: (key ++ maskPayload key m)) := by
    unfold maskedClientFrame
    rw [if_pos h]
  rw [henc]
  have hmask : (((128 + m.length) &&& 128) != 0) = true := by
    rw [land128_add (by omega)]
    rfl
  have hpl : (128 + m.length) &&& 127 = m.length := by
    rw [land127_eq_mod]
    omega
  simp only [decodeWebSocketFrame, show ((129 : Nat) &&& 15) = 1 from by decide, hmask, hpl]
  rw [if_neg (by simp), if_neg (by omega), if_neg (by omega)]
  exact decodePayload_masked [129, 128 + m.length] key m 2 rfl hkey

theorem decode_masked_mid {key m : List Nat} (h1 : 126 ≤ m.length) (h2 : m.length < 65536)
    (hkey : key.length = 4) :
    decodeWebSocketFrame (maskedClientFrame key m) = m := by
  have henc : maskedClientFrame key m
      = 129 :: (254 :: (((m.length >>> 8) % 256)
          :: ((m.length &&& 255) :: (key ++ maskPayload key m)))) := by
    unfold maskedClientFrame
    rw [if_neg (by omega), if_pos h2]
  rw [henc]
  have hd2 : (m.length >>> 8) % 256 = m.length / 256 := by
    rw [Nat.shiftRight_eq_div_pow]
    norm_num
    omega
  have hd3 : m.length &&& 255 = m.length % 256 := land255_eq_mod m.length
  have hor : ((m.length / 256) <<< 8) ||| (m.length % 256) = m.length := by
    rw [shiftLeft8_lor _ _ (Nat.mod_lt _ (by norm_num))]
    omega
  simp only [decodeWebSocketFrame]
  rw [if_neg (show ¬(((129 : Nat) &&& 15) ≠ 1 ∧ ((129 : Nat) &&& 15) ≠ 2) from by decide)]
  rw [if_pos (show ((254 : Nat) &&& 127) = 126 from by decide)]
  rw [if_neg (show ¬((129 :: (254 :: (((m.length >>> 8) % 256)
    :: ((m.length &&& 255) :: (key ++ maskPayload key m))))).length < 4) from by simp)]
  rw [show (((254 : Nat) &&& 128) != 0) = true from by decide]
  show decodePayload (129 :: (254 :: (((m.length >>> 8) % 256)
    :: ((m.length &&& 255) :: (key ++ maskPayload key m))))) 4
    ((((m.length >>> 8) % 256) <<< 8) ||| (m.length &&& 255)) true = m
  rw [hd2, hd3, hor]
  exact decodePayload_masked [129, 254, m.length / 256, m.length % 256] key m 4 rfl hkey

theorem decodePayload_tail (x y : Nat) (l : List Nat) {off : Nat} (hoff : 1 ≤ off)
    (pl : Nat) (masked : Bool) :
    decodePayload (x :: l) off pl masked = decodePayload (y :: l) off pl masked := by
  obtain ⟨o, rfl⟩ : ∃ o, off = o + 1 := ⟨off - 1, by omega⟩
  have hg1 : ∀ (z : Nat) (i : Nat), (z :: l).getD (o + 1 + 4 + i) 0 = l.getD (o + 4 + i) 0 := by
    intro z i
    have he : o + 1 + 4 + i = (o + 4 + i) + 1 := by omega
    rw [he, List.getD_cons_succ]
  have hg2 : ∀ (z : Nat) (i : Nat), (z :: l).getD (o + 1 + i) 0 = l.getD (o + i) 0 := by
    intro z i
    have he : o + 1 + i = (o + i) + 1 := by omega
    rw [he, List.getD_cons_succ]
  unfold decodePayload
  simp only [List.length_cons, List.drop_succ_cons, hg1, hg2]

/-! ### Claim C3, C4, C10 theorems -/

/-- Claim C3: for every text payload of length at most 65535 bytes,
decoding the frame produced by `sendWebSocketFrame` yields the payload
unchanged, and decoding the same payload XOR-masked on the wire with any
4-byte key also recovers it. -/
theorem claim_C3_codec_roundtrip (m key : List Nat) (hm : m.length ≤ 65535)
    (hkey : key.length = 4) :
    decodeWebSocketFrame (sendWebSocketFrame m) = m ∧
    decodeWebSocketFrame (maskedClientFrame key m) = m := by
  rcases Nat.lt_or_ge m.length 126 with h | h
  · exact ⟨decode_encode_small h, decode_masked_small h hkey⟩
  · exact ⟨decode_encode_mid h (by omega), decode_masked_mid h (by omega) hkey⟩

theorem claim_C3_codec_roundtrip_witness :
    ([72, 105] : List Nat).length ≤ 65535 ∧ ([7, 1, 2, 3] : List Nat).length = 4 ∧
    (decodeWebSocketFrame (sendWebSocketFrame [72, 105]) = [72, 105] ∧
      decodeWebSocketFrame (maskedClientFrame [7, 1, 2, 3] [72, 105]) = [72, 105]) :=
  ⟨by decide, by decide, claim_C3_codec_roundtrip [72, 105] [7, 1, 2, 3] (by decide) (by decide)⟩

/-- Claim C4: payload lengths 0 and 125 use the direct 7-bit length
form, 126 and 65535 the 16-bit extended form (marker 126 plus two
big-endian bytes), 65536 the 64-bit extended form (marker 127 plus eight
big-endian bytes), and in all five cases the decoder recovers the
original payload length. -/
theorem claim_C4_length_forms (m0 m125 m126 m65535 m65536 : List Nat)
    (h0 : m0.length = 0) (h125 : m125.length = 125) (h126 : m126.length = 126)
    (h65535 : m65535.length = 65535) (h65536 : m65536.length = 65536) :
    sendWebSocketFrame m0 = 129 :: (0 :: m0) ∧
    sendWebSocketFrame m125 = 129 :: (125 :: m125) ∧
    sendWebSocketFrame m126 = 129 :: (126 :: (0 :: (126 :: m126))) ∧
    sendWebSocketFrame m65535 = 129 :: (126 :: (255 :: (255 :: m65535))) ∧
    sendWebSocketFrame m65536 = [129, 127, 0, 0, 0, 0, 0, 1, 0, 0] ++ m65536 ∧
    (decodeWebSocketFrame (sendWebSocketFrame m0)).length = 0 ∧
    (decodeWebSocketFrame (sendWebSocketFrame m125)).length = 125 ∧
    (decodeWebSocketFrame (sendWebSocketFrame m126)).length = 126 ∧
    (decodeWebSocketFrame (sendWebSocketFrame m65535)).length = 65535 ∧
    (decodeWebSocketFrame (sendWebSocketFrame m65536)).length = 65536 := by
  refine ⟨?_, ?_, ?_, ?_, ?_, ?_, ?_, ?_, ?_, ?_⟩
  · unfold sendWebSocketFrame
    rw [h0]
    rfl
  · unfold sendWebSocketFrame
    rw [h125]
    rfl
  · unfold sendWebSocketFrame
    rw [h126]
    rfl
  · unfold sendWebSocketFrame
    rw [h65535]
    rfl
  · unfold sendWebSocketFrame
    rw [h65536]
    rfl
  · rw [decode_encode_small (by omega)]
    exact h0
  · rw [decode_encode_small (by omega)]
    exact h125
  · rw [decode_encode_mid (by omega) (by omega)]
    exact h126
  · rw [decode_encode_mid (by omega) (by omega)]
    exact h65535
  · rw [decode_encode_65536 h65536]
    exact h65536

theorem claim_C4_length_forms_witness :
    (List.replicate 0 (7 : Nat)).length = 0 ∧
    (List.replicate 125 (7 : Nat)).length = 125 ∧
    (List.replicate 126 (7 : Nat)).length = 126 ∧
    (List.replicate 65535 (7 : Nat)).length = 65535 ∧
    (List.replicate 65536 (7 : Nat)).length = 65536 ∧
    (decodeWebSocketFrame (sendWebSocketFrame (List.replicate 65536 (7 : Nat)))).length
      = 65536 := by
  refine ⟨List.length_replicate 0 7, List.length_replicate 125 7, List.length_replicate 126 7,
    List.length_replicate 65535 7, List.length_replicate 65536 7, ?_⟩
  have h := claim_C4_length_forms (List.replicate 0 7) (List.replicate 125 7)
    (List.replicate 126 7) (List.replicate 65535 7) (List.replicate 65536 7)
    (List.length_replicate 0 7) (List.length_replicate 125 7) (List.length_replicate 126 7)
    (List.length_replicate 65535 7) (List.length_replicate 65536 7)
  exact h.2.2.2.2.2.2.2.2.2

/-- Claim C10: the frame decoder never examines the FIN bit (or any
other bit of byte 0 outside the opcode nibble): two buffers whose first
bytes agree on the opcode nibble decode identically, so a frame with
FIN unset decodes exactly like the same frame with FIN set. -/
theorem claim_C10_fin_bit_ignored (x y : Nat) (rest : List Nat) (h : x &&& 15 = y &&& 15) :
    decodeWebSocketFrame (x :: rest) = decodeWebSocketFrame (y :: rest) := by
  cases rest with
  | nil => rfl
  | cons b t =>
    have g2 : ∀ z : Nat, (z :: (b :: t)).getD 2 0 = t.getD 0 0 := fun _ => rfl
    have g3 : ∀ z : Nat, (z :: (b :: t)).getD 3 0 = t.getD 1 0 := fun _ => rfl
    have g6 : ∀ z : Nat, (z :: (b :: t)).getD 6 0 = t.getD 4 0 := fun _ => rfl
    have g7 : ∀ z : Nat, (z :: (b :: t)).getD 7 0 = t.getD 5 0 := fun _ => rfl
    have g8 : ∀ z : Nat, (z :: (b :: t)).getD 8 0 = t.getD 6 0 := fun _ => rfl
    have g9 : ∀ z : Nat, (z :: (b :: t)).getD 9 0 = t.getD 7 0 := fun _ => rfl
    simp only [decodeWebSocketFrame, h, List.length_cons, g2, g3, g6, g7, g8, g9,
      decodePayload_tail x y (b :: t) (show (1 : Nat) ≤ 2 from by norm_num),
      decodePayload_tail x y (b :: t) (show (1 : Nat) ≤ 4 from by norm_num),
      decodePayload_tail x y (b :: t) (show (1 : Nat) ≤ 10 from by norm_num)]

theorem claim_C10_fin_bit_ignored_witness :
    ((1 : Nat) &&& 15 = (129 : Nat) &&& 15) ∧
    decodeWebSocketFrame (1 :: [1, 65]) = decodeWebSocketFrame (129 :: [1, 65]) ∧
    decodeWebSocketFrame (129 :: [1, 65]) = [65] :=
  ⟨by decide, claim_C10_fin_bit_ignored 1 129 [1, 65] (by decide), by decide⟩

/-! ### Session/slot registry, from `PluginManager.cpp` / `PluginManager.h` -/

/-- Strings of `juce::String` modelled as lists of characters. -/
abbrev Str := List Char

/-- Embedding of `PluginManager::makeKey` (PluginManager.h lines 124-127): the flat
map key `clientId + "_" + slotId`. -/
def makeKey (clientId slotId : Str) : Str := clientId ++ ('_' :: slotId)

/-- Model of `juce::String::startsWith`: exact character-by-character test that
the second argument is an initial segment of the first. -/
def strStartsWith : Str → Str → Bool
  | _, [] => true
  | [], _ :: _ => false
  | c :: cs, p :: ps => c == p && strStartsWith cs ps

/-- One live entry of `PluginManager::activeInstances`: the creation
arguments (recording which client and slot the entry was created for —
the map itself keys only on the flattened `entryKey`), the opaque
`PluginInstance` handle, and the instance's parameter list (name/value
pairs; values are opaque payloads here). -/
structure SessionEntry where
  clientId : Str
  slotId : Str
  handle : Nat
  params : List (Str × Int)
deriving DecidableEq

/-- The map key under which an entry is stored. -/
def entryKey (e : SessionEntry) : Str := makeKey e.clientId e.slotId

/-- Embedding of `PluginManager::loadPlugin` (PluginManager.cpp lines 122-149) after
`createPluginInstance` has succeeded: under the instance lock,
`activeInstances[key] = std::move(pluginInstance)` installs the new
wrapper, move-assignment destroying whatever `unique_ptr` the map slot
previously held.  Returns the new registry together with the handles
destroyed by the overwrite. -/
def loadPlugin (clientId slotId : Str) (handle : Nat) (params : List (Str × Int))
    (st : List SessionEntry) : List SessionEntry × List Nat :=
  ((st.filter (fun e => !(entryKey e == makeKey clientId slotId)))
      ++ [⟨clientId, slotId, handle, params⟩],
   (st.filter (fun e => entryKey e == makeKey clientId slotId)).map (fun e => e.handle))

/-- Embedding of `PluginManager::unloadPlugin` (PluginManager.cpp lines 151-159):
`activeInstances.erase(key)`, a no-op when the key is absent. -/
def unloadPlugin (clientId slotId : Str) (st : List SessionEntry) : List SessionEntry :=
  st.filter (fun e => !(entryKey e == makeKey clientId slotId))

/-- Embedding of `PluginManager::getInstance` (PluginManager.cpp lines 182-195):
`activeInstances.find(key)`, returning the stored handle or null. -/
def getInstance (clientId slotId : Str) (st : List SessionEntry) : Option Nat :=
  (st.find? (fun e => entryKey e == makeKey clientId slotId)).map (fun e => e.handle)

/-- Embedding of `PluginManager::unloadAllForClient` (PluginManager.cpp lines
161-180): erases every entry whose key starts with `clientId + "_"`. -/
def unloadAllForClient (clientId : Str) (st : List SessionEntry) : List SessionEntry :=
  st.filter (fun e => !(strStartsWith (entryKey e) (clientId ++ ['_'])))

/-! ### Registry lemmas -/

theorem filter_key_singleton (st : List SessionEntry) (e : SessionEntry)
    (hnd : (st.map entryKey).Nodup) (he : e ∈ st) :
    st.filter (fun x => entryKey x == entryKey e) = [e] := by
  induction st with
  | nil => cases he
  | cons a t ih =>
    rw [List.map_cons, List.nodup_cons] at hnd
    rcases List.mem_cons.mp he with rfl | hmem
    · rw [List.filter_cons_of_pos (by simp)]
      have ht : t.filter (fun x => entryKey x == entryKey e) = [] := by
        rw [List.filter_eq_nil_iff]
        intro x hx
        simp only [beq_iff_eq]
        intro hkey
        exact hnd.1 (hkey ▸ List.mem_map_of_mem entryKey hx)
      rw [ht]
    · have hne : ¬((entryKey a == entryKey e) = true) := by
        simp only [beq_iff_eq]
        intro hkey
        exact hnd.1 (hkey ▸ List.mem_map_of_mem entryKey hmem)
      rw [List.filter_cons_of_neg (by simpa using hne)]
      exact ih hnd.2 hmem

theorem find?_filter_not_key (st : List SessionEntry) (k : Str) :
    (st.filter (fun e => !(entryKey e == k))).find? (fun e => entryKey e == k) = none := by
  rw [List.find?_eq_none]
  intro x hx
  have hp := (List.mem_filter.mp hx).2
  simp only [Bool.not_eq_eq_eq_not, Bool.not_true] at hp
  simp [hp]

theorem getInstance_after_load (c s : Str) (h : Nat) (p : List (Str × Int))
    (st : List SessionEntry) :
    getInstance c s (loadPlugin c s h p st).1 = some h := by
  unfold getInstance loadPlugin
  rw [List.find?_append, find?_filter_not_key]
  simp [entryKey, makeKey]

theorem strStartsWith_key (c s : Str) : strStartsWith (makeKey c s) (c ++ ['_']) = true := by
  induction c with
  | nil => simp [makeKey, strStartsWith]
  | cons a t ih =>
    simp only [makeKey, List.cons_append, strStartsWith, beq_self_eq_true, Bool.true_and]
    simpa [makeKey] using ih

/-! ### Claims C5, C6, C7 -/

/-- Claim C5: a successful load into a compound key already mapped to a
live handle destroys the prior handle exactly once and installs the new
handle; a subsequent lookup returns the new handle. -/
theorem claim_C5_replace_destroys_once (st : List SessionEntry) (c s : Str)
    (hOld : Nat) (pOld : List (Str × Int)) (hNew : Nat) (pNew : List (Str × Int))
    (hnd : (st.map entryKey).Nodup) (hmem : (⟨c, s, hOld, pOld⟩ : SessionEntry) ∈ st) :
    (loadPlugin c s hNew pNew st).2 = [hOld] ∧
    getInstance c s (loadPlugin c s hNew pNew st).1 = some hNew := by
  constructor
  · have hf : st.filter (fun x => entryKey x == makeKey c s) = [⟨c, s, hOld, pOld⟩] :=
      filter_key_singleton st ⟨c, s, hOld, pOld⟩ hnd hmem
    show (st.filter (fun e => entryKey e == makeKey c s)).map (fun e => e.handle) = [hOld]
    rw [hf]
    rfl
  · exact getInstance_after_load c s hNew pNew st

theorem claim_C5_replace_destroys_once_witness :
    (([⟨['a'], ['b'], 1, []⟩] : List SessionEntry).map entryKey).Nodup ∧
    ((⟨['a'], ['b'], 1, []⟩ : SessionEntry) ∈ ([⟨['a'], ['b'], 1, []⟩] : List SessionEntry)) ∧
    ((loadPlugin ['a'] ['b'] 2 [] [⟨['a'], ['b'], 1, []⟩]).2 = [1] ∧
      getInstance ['a'] ['b'] (loadPlugin ['a'] ['b'] 2 [] [⟨['a'], ['b'], 1, []⟩]).1 = some 2) :=
  ⟨by decide, by decide,
    claim_C5_replace_destroys_once [⟨['a'], ['b'], 1, []⟩] ['a'] ['b'] 1 [] 2 []
      (by decide) (by decide)⟩

/-- Claim C6 counterexample: `destroyAllForClient "c1"` also removes the
entry created for the distinct client-id `"c1_x"`, because erasure is by
string-prefix match on the flattened key (`"c1_x_s"` starts with
`"c1_"`). -/
theorem claim_C6_counterexample :
    unloadAllForClient ['c', '1']
      [⟨['c', '1'], ['s'], 1, []⟩, ⟨['c', '1', '_', 'x'], ['s'], 2, []⟩] = [] ∧
    (⟨['c', '1', '_', 'x'], ['s'], 2, []⟩ : SessionEntry).clientId ≠ ['c', '1'] := by
  decide

/-- Claim C6 (amended): `unloadAllForClient c` removes exactly the
entries whose flattened key starts with `c + "_"`.  Every entry whose
client-id component is `c` is removed; an entry is retained if and only
if its flattened key does not start with `c + "_"` — so entries of a
different client-id survive unless their own flattened key happens to
begin with `c + "_"`. -/
theorem claim_C6_amended_removal (st : List SessionEntry) (c : Str) :
    (∀ e ∈ st, e.clientId = c → e ∉ unloadAllForClient c st) ∧
    (∀ e ∈ st, strStartsWith (entryKey e) (c ++ ['_']) = false → e ∈ unloadAllForClient c st) ∧
    (∀ e ∈ unloadAllForClient c st,
      e ∈ st ∧ strStartsWith (entryKey e) (c ++ ['_']) = false) := by
  refine ⟨?_, ?_, ?_⟩
  · intro e _ hc hmem
    have hp := (List.mem_filter.mp hmem).2
    rw [Bool.not_eq_eq_eq_not, Bool.not_true] at hp
    have hkey : entryKey e = makeKey c e.slotId := by
      rw [entryKey, hc]
    rw [hkey, strStartsWith_key] at hp
    cases hp
  · intro e he hfalse
    exact List.mem_filter.mpr ⟨he, by rw [hfalse]; rfl⟩
  · intro e hmem
    have h := List.mem_filter.mp hmem
    refine ⟨h.1, ?_⟩
    have hp := h.2
    rw [Bool.not_eq_eq_eq_not, Bool.not_true] at hp
    exact hp

theorem claim_C6_amended_removal_witness :
    ((⟨['c', '1'], ['s'], 1, []⟩ : SessionEntry) ∈
      ([⟨['c', '1'], ['s'], 1, []⟩, ⟨['d'], ['s'], 2, []⟩] : List SessionEntry)) ∧
    (⟨['c', '1'], ['s'], 1, []⟩ : SessionEntry).clientId = ['c', '1'] ∧
    (⟨['c', '1'], ['s'], 1, []⟩ : SessionEntry) ∉
      unloadAllForClient ['c', '1'] [⟨['c', '1'], ['s'], 1, []⟩, ⟨['d'], ['s'], 2, []⟩] :=
  ⟨by decide, by decide,
    (claim_C6_amended_removal [⟨['c', '1'], ['s'], 1, []⟩, ⟨['d'], ['s'], 2, []⟩] ['c', '1']).1
      ⟨['c', '1'], ['s'], 1, []⟩ (by decide) (by decide)⟩

/-- Claim C7: a successful create followed immediately by a lookup of
the same compound key returns the just-created handle; destroy-one
followed by lookup returns none; destroy-one on an absent key leaves the
registry unchanged. -/
theorem claim_C7_create_get_destroy (c s : Str) (h : Nat) (p : List (Str × Int))
    (st : List SessionEntry) :
    getInstance c s (loadPlugin c s h p st).1 = some h ∧
    getInstance c s (unloadPlugin c s st) = none ∧
    (getInstance c s st = none → unloadPlugin c s st = st) := by
  refine ⟨getInstance_after_load c s h p st, ?_, ?_⟩
  · unfold getInstance unloadPlugin
    rw [find?_filter_not_key]
    rfl
  · intro hnone
    unfold getInstance at hnone
    have hfind : st.find? (fun e => entryKey e == makeKey c s) = none := by
      cases hf : st.find? (fun e => entryKey e == makeKey c s) with
      | none => rfl
      | some v =>
        rw [hf] at hnone
        cases hnone
    have hall := List.find?_eq_none.mp hfind
    unfold unloadPlugin
    rw [List.filter_eq_self]
    intro e he
    have := hall e he
    simpa using this

theorem claim_C7_create_get_destroy_witness :
    (getInstance ['a'] ['b'] (loadPlugin ['a'] ['b'] 5 [] []).1 = some 5 ∧
      getInstance ['a'] ['b'] (unloadPlugin ['a'] ['b'] [⟨['a'], ['b'], 5, []⟩]) = none ∧
      (getInstance ['a'] ['b'] [⟨['z'], ['b'], 5, []⟩] = none →
        unloadPlugin ['a'] ['b'] [⟨['z'], ['b'], 5, []⟩] = [⟨['z'], ['b'], 5, []⟩])) ∧
    getInstance ['a'] ['b'] [⟨['z'], ['b'], 5, []⟩] = none ∧
    unloadPlugin ['a'] ['b'] [⟨['z'], ['b'], 5, []⟩] = [⟨['z'], ['b'], 5, []⟩] := by
  refine ⟨⟨(claim_C7_create_get_destroy ['a'] ['b'] 5 [] []).1,
    (claim_C7_create_get_destroy ['a'] ['b'] 5 [] [⟨['a'], ['b'], 5, []⟩]).2.1, ?_⟩, ?_, ?_⟩
  · exact (claim_C7_create_get_destroy ['a'] ['b'] 5 [] [⟨['z'], ['b'], 5, []⟩]).2.2
  · decide
  · exact (claim_C7_create_get_destroy ['a'] ['b'] 5 [] [⟨['z'], ['b'], 5, []⟩]).2.2 (by decide)

/-! ### Message handlers, from `MainComponent.cpp` -/

/-- The `channels` field of a PROCESS_AUDIO message: either a JSON array
of per-channel sample arrays or some non-array value (the malformed
case).  Sample values are opaque numeric payloads. -/
inductive ChannelsVal where
  | arr (chans : List (List Int)) : ChannelsVal
  | nonArray : ChannelsVal
deriving DecidableEq

/-- Model of `juce::var::isArray` for the modelled channels value. -/
def ChannelsVal.isArray : ChannelsVal → Bool
  | .arr _ => true
  | .nonArray => false

/-- The AUDIO_PROCESSED reply assembled by `handleProcessAudio`. -/
structure AudioReply where
  action : Str
  channels : ChannelsVal
  slotId : Str
deriving DecidableEq

/-- Embedding of `MainComponent::handleProcessAudio` (MainComponent.cpp lines
235-290).  If the slot has no live instance or the channels payload is
not an array, the input channels value is echoed back verbatim and no
processing is invoked (second component `none`).  Otherwise the channel
arrays are converted to a buffer whose sample count is channel 0's
length (out-of-range indexing yields 0, as `juce::var` indexing does),
`processBlock` runs on the instance, and the processed buffer is
returned; the second component records the handle processing ran on. -/
def handleProcessAudio (st : List SessionEntry) (clientId slotId : Str)
    (channelsData : ChannelsVal) (process : Nat → List (List Int) → List (List Int)) :
    AudioReply × Option Nat :=
  match getInstance clientId slotId st, channelsData with
  | some inst, .arr channels =>
      let numSamples := (channels.getD 0 []).length
      let buffer := channels.map (fun ch => (List.range numSamples).map (fun s => ch.getD s 0))
      let processed := process inst buffer
      (⟨String.toList "AUDIO_PROCESSED", .arr processed, slotId⟩, some inst)
  | _, _ => (⟨String.toList "AUDIO_PROCESSED", channelsData, slotId⟩, none)

/-- Embedding of the parameter update loop of `MainComponent::handleSetParam`
(MainComponent.cpp lines 301-309): scan parameters in index order, set
the value of the first whose name matches, then break. -/
def setParamScan : List (Str × Int) → Str → Int → List (Str × Int)
  | [], _, _ => []
  | p :: ps, pname, value =>
    if p.1 == pname then (p.1, value) :: ps else p :: setParamScan ps pname value

/-- Modelled from the spec's wording, for comparison with
`setParamScan`: set only the first parameter (in index order) whose name
equals the requested name; leave the list unchanged when none match. -/
def setParamFirstMatch (ps : List (Str × Int)) (pname : Str) (value : Int) :
    List (Str × Int) :=
  match ps.findIdx? (fun p => p.1 == pname) with
  | none => ps
  | some i => ps.set i (pname, value)

/-- Pointer-update semantics of mutating the instance returned by
`getInstance`: the first entry carrying the given key is replaced. -/
def updateFirstWithKey (key : Str) (f : SessionEntry → SessionEntry) :
    List SessionEntry → List SessionEntry
  | [] => []
  | e :: es => if entryKey e == key then f e :: es else e :: updateFirstWithKey key f es

/-- The PARAM_CHANGED reply assembled by `handleSetParam`. -/
structure ParamReply where
  action : Str
  name : Str
  value : Int
  slotId : Str
deriving DecidableEq

/-- Embedding of `MainComponent::handleSetParam` (MainComponent.cpp lines 292-319):
look up the slot; if an instance exists, run the first-match parameter
scan on that instance; in all cases send exactly one PARAM_CHANGED
reply echoing the requested name and value. -/
def handleSetParam (st : List SessionEntry) (clientId slotId pname : Str) (value : Int) :
    List SessionEntry × ParamReply :=
  let st' := match getInstance clientId slotId st with
    | none => st
    | some _ => updateFirstWithKey (makeKey clientId slotId)
        (fun e => { e with params := setParamScan e.params pname value }) st
  (st', ⟨String.toList "PARAM_CHANGED", pname, value, slotId⟩)

theorem setParamScan_eq_firstMatch (ps : List (Str × Int)) (pname : Str) (value : Int) :
    setParamScan ps pname value = setParamFirstMatch ps pname value := by
  induction ps with
  | nil => rfl
  | cons p ps ih =>
    by_cases hp : (p.1 == pname) = true
    · have hname : p.1 = pname := by simpa using hp
      simp [setParamScan, setParamFirstMatch, List.findIdx?_cons, hp, hname]
    · simp only [setParamScan, setParamFirstMatch, List.findIdx?_cons, if_neg hp,
        List.findIdx?_succ]
      rw [ih]
      simp only [setParamFirstMatch]
      cases hf : ps.findIdx? (fun q => q.1 == pname) with
      | none => simp [hf]
      | some i => simp [hf]

/-! ### Claims C8, C9 -/

/-- Claim C8: a PROCESS_AUDIO whose slot has no live session for the
sending client, or whose channels payload is not an array, is answered
with an AUDIO_PROCESSED reply echoing the input channels value verbatim
with the requested slot_id, and no processing call touches any session
state. -/
theorem claim_C8_fail_open_echo (st : List SessionEntry) (c s : Str)
    (cd : ChannelsVal) (process : Nat → List (List Int) → List (List Int))
    (hfail : getInstance c s st = none ∨ cd.isArray = false) :
    handleProcessAudio st c s cd process
      = (⟨String.toList "AUDIO_PROCESSED", cd, s⟩, none) := by
  unfold handleProcessAudio
  rcases hfail with h | h
  · rw [h]
  · cases cd with
    | arr chans => simp [ChannelsVal.isArray] at h
    | nonArray =>
      cases hg : getInstance c s st with
      | none => rfl
      | some v => rfl

theorem claim_C8_fail_open_echo_witness :
    (getInstance ['a'] ['b'] ([] : List SessionEntry) = none ∨
      (ChannelsVal.arr [[1, 2]]).isArray = false) ∧
    handleProcessAudio [] ['a'] ['b'] (ChannelsVal.arr [[1, 2]]) (fun _ chs => chs)
      = (⟨String.toList "AUDIO_PROCESSED", ChannelsVal.arr [[1, 2]], ['b']⟩, none) :=
  ⟨Or.inl (by decide),
    claim_C8_fail_open_echo [] ['a'] ['b'] (ChannelsVal.arr [[1, 2]]) (fun _ chs => chs)
      (Or.inl (by decide))⟩

/-- Claim C9: every SET_PARAM produces exactly one PARAM_CHANGED reply
echoing the requested name and value, whether or not the slot exists or
any parameter matches; when the slot exists, only the first parameter
(in index order) whose name equals the requested name is set. -/
theorem claim_C9_set_param_echo (st : List SessionEntry) (c s pname : Str) (value : Int) :
    (handleSetParam st c s pname value).2
      = ⟨String.toList "PARAM_CHANGED", pname, value, s⟩ ∧
    (getInstance c s st = none → (handleSetParam st c s pname value).1 = st) ∧
    (∀ h0, getInstance c s st = some h0 →
      (handleSetParam st c s pname value).1
        = updateFirstWithKey (makeKey c s)
            (fun e => { e with params := setParamFirstMatch e.params pname value }) st) := by
  refine ⟨rfl, ?_, ?_⟩
  · intro h
    show (match getInstance c s st with
      | none => st
      | some _ => updateFirstWithKey (makeKey c s)
          (fun e => { e with params := setParamScan e.params pname value }) st) = st
    rw [h]
  · intro h0 hsome
    show (match getInstance c s st with
      | none => st
      | some _ => updateFirstWithKey (makeKey c s)
          (fun e => { e with params := setParamScan e.params pname value }) st) = _
    rw [hsome]
    have hfun : (fun e : SessionEntry => { e with params := setParamScan e.params pname value })
        = (fun e : SessionEntry =>
            { e with params := setParamFirstMatch e.params pname value }) := by
      funext e
      rw [setParamScan_eq_firstMatch]
    rw [hfun]

theorem claim_C9_set_param_echo_witness :
    ((handleSetParam [⟨['a'], ['b'], 4, [(['p'], 0), (['p'], 7)]⟩] ['a'] ['b'] ['p'] 3).2
      = ⟨String.toList "PARAM_CHANGED", ['p'], 3, ['b']⟩) ∧
    (getInstance ['a'] ['b'] [⟨['a'], ['b'], 4, [(['p'], 0), (['p'], 7)]⟩] = some 4) ∧
    ((handleSetParam [⟨['a'], ['b'], 4, [(['p'], 0), (['p'], 7)]⟩] ['a'] ['b'] ['p'] 3).1
      = [⟨['a'], ['b'], 4, [(['p'], 3), (['p'], 7)]⟩]) := by
  refine ⟨(claim_C9_set_param_echo [⟨['a'], ['b'], 4, [(['p'], 0), (['p'], 7)]⟩]
    ['a'] ['b'] ['p'] 3).1, by decide, ?_⟩
  rw [(claim_C9_set_param_echo [⟨['a'], ['b'], 4, [(['p'], 0), (['p'], 7)]⟩]
    ['a'] ['b'] ['p'] 3).2.2 4 (by decide)]
  decide

/-! ### UI push scheduler, from `MainComponent.cpp` -/

/-- One outgoing UI_FRAME send: the client-id the frame is addressed to,
the slot_id field, and the encoded image payload. -/
structure UiFrameSend where
  target : Str
  slotId : Str
  image : Str
deriving DecidableEq

/-- Embedding of `PluginManager::getAllActiveInstances` (PluginManager.cpp lines
197-209): the (key, handle) snapshot handed to the push scheduler. -/
def getAllActiveInstances (st : List SessionEntry) : List (Str × Nat) :=
  st.map (fun e => (entryKey e, e.handle))

/-- Embedding of `MainComponent::captureAndSendUI` (MainComponent.cpp lines 432-467):
iterate the registry snapshot; skip sessions without an editor or whose
capture produced no valid image; split the flat map key at its first
underscore (`StringArray::fromTokens(key, "_", "")` gives the part
before the first underscore as `parts[0]`, and
`key.substring(clientId.length() + 1)` the remainder) and send the
UI_FRAME to that first part, with slot_id the remainder.  Keys with no
underscore (fewer than two tokens) are skipped. -/
def captureAndSendUI (snapshot : List (Str × Nat)) (hasEditor : Nat → Bool)
    (render : Nat → Option Str) : List UiFrameSend :=
  snapshot.filterMap (fun kv =>
    if hasEditor kv.2 = false then none
    else match render kv.2 with
      | none => none
      | some img =>
        if kv.1.any (fun ch => ch == '_') then
          let clientId := kv.1.takeWhile (fun ch => !(ch == '_'))
          let slotId := kv.1.drop (clientId.length + 1)
          some ⟨clientId, slotId, img⟩
        else none)

/-! ### Claim C2 -/

/-- Claim C2 (code evaluation at the failing input): a session created
under the server-assigned client-id "client_123" in slot "A" is stored
under the flat key "client_123_A"; `captureAndSendUI` addresses its
UI_FRAME to "client" rather than "client_123" and labels it with
slot_id "123_A" rather than "A", because the key is split at its first
underscore while server-assigned client-ids themselves contain an
underscore. -/
theorem claim_C2_misaddressed_frame :
    captureAndSendUI
        (getAllActiveInstances [⟨String.toList "client_123", ['A'], 7, []⟩])
        (fun _ => true) (fun _ => some (String.toList "img"))
      = [⟨String.toList "client", String.toList "123_A", String.toList "img"⟩] ∧
    String.toList "client" ≠ String.toList "client_123" ∧
    String.toList "123_A" ≠ ['A'] := by
  decide

/-! ### Handshake and connection acceptance, from `WebSocketServer.cpp` -/

/-- ASCII lower-casing of one character (the case-insensitive
`juce::String` comparisons, restricted to the ASCII range the protocol
tokens use). -/
def toLowerChar (c : Char) : Char :=
  if 'A' ≤ c ∧ c ≤ 'Z' then Char.ofNat (c.toNat + 32) else c

/-- Model of `juce::String::contains`: substring occurrence test. -/
def strContains : Str → Str → Bool
  | [], sub => sub.isEmpty
  | c :: cs, sub => strStartsWith (c :: cs) sub || strContains cs sub

/-- The `request.contains("Upgrade: websocket") ||
request.containsIgnoreCase("upgrade: websocket")` test of
`WebSocketServer::handleNewConnection` (line 156). -/
def upgradeHeaderFound (request : Str) : Bool :=
  strContains request (String.toList "Upgrade: websocket")
    || strContains (request.map toLowerChar)
        ((String.toList "upgrade: websocket").map toLowerChar)

/-- Line splitting of `juce::StringArray::fromLines`, on newline
characters; carriage returns stay attached and are trimmed later. -/
def splitLines : Str → List Str
  | [] => [[]]
  | c :: cs =>
    match splitLines cs with
    | [] => [[]]
    | r :: rs => if c == '\n' then [] :: (r :: rs) else (c :: r) :: rs

/-- Whitespace test used by `juce::String::trim`. -/
def isWhitespaceChar (c : Char) : Bool :=
  c == ' ' || c == '\t' || c == '\r' || c == '\n'

/-- Model of `juce::String::trim`: strip leading and trailing whitespace. -/
def trimStr (s : Str) : Str :=
  ((s.dropWhile isWhitespaceChar).reverse.dropWhile isWhitespaceChar).reverse

/-- Key extraction of `WebSocketServer::performWebSocketHandshake`
(lines 185-199): the first request line starting (case-insensitively)
with "Sec-WebSocket-Key:", with its first 18 characters dropped
(`substring(18)`) and the remainder trimmed; empty when no such line
exists. -/
def extractWebSocketKey (request : Str) : Str :=
  match (splitLines request).find? (fun line =>
      strStartsWith (line.map toLowerChar)
        ((String.toList "Sec-WebSocket-Key:").map toLowerChar)) with
  | some line => trimStr (line.drop 18)
  | none => []

/-- Embedding of `WebSocketServer::performWebSocketHandshake` (lines 183-236): when
the extracted key is empty the function returns without writing
anything; otherwise it writes the 101 Switching Protocols response
whose accept token is the base64 SHA-1 of the key concatenated with the
fixed protocol GUID (the hash itself is an external crypto API,
abstracted as the `accept` parameter). -/
def performWebSocketHandshake (accept : Str → Str) (request : Str) : Option Str :=
  let key := extractWebSocketKey request
  if key.isEmpty then none
  else some
    ((String.toList "HTTP/1.1 101 Switching Protocols\r\nUpgrade: websocket\r\nConnection: Upgrade\r\nSec-WebSocket-Accept: ")
      ++ accept (key ++ String.toList "258EAFA5-E914-47DA-95CA-C5AB0DC85B11")
      ++ String.toList "\r\n\r\n")

/-- Result of `WebSocketServer::handleNewConnection` for one accepted
socket: whether the client was inserted into the `clients` registry,
whether the `onClientConnected` notification fired, and the handshake
response bytes written to the socket (none when nothing was written). -/
structure ConnOutcome where
  registered : Bool
  notified : Bool
  responseWritten : Option Str
deriving DecidableEq

/-- Embedding of `WebSocketServer::handleNewConnection` (lines 127-181): on a
non-empty read, any request containing the upgrade header goes through
`performWebSocketHandshake` and is then unconditionally registered and
announced — the handshake's missing-key early return is never checked
by the caller. -/
def handleNewConnection (accept : Str → Str) (request : Str) : ConnOutcome :=
  if request.isEmpty then ⟨false, false, none⟩
  else if upgradeHeaderFound request then
    ⟨true, true, performWebSocketHandshake accept request⟩
  else ⟨false, false, none⟩

/-! ### Claim C1 -/

/-- Claim C1 (code evaluation at the failing input): a request carrying
`Upgrade: websocket` but no `Sec-WebSocket-Key` header extracts an
empty key, so no handshake response is written — yet the connection is
still registered and the connect notification still fires,
contradicting the specified discard-without-registration behaviour. -/
theorem claim_C1_missing_key_still_registered :
    extractWebSocketKey
      (String.toList "GET / HTTP/1.1\r\nUpgrade: websocket\r\nHost: x\r\n\r\n") = [] ∧
    handleNewConnection (fun _ => [])
      (String.toList "GET / HTTP/1.1\r\nUpgrade: websocket\r\nHost: x\r\n\r\n")
      = ⟨true, true, none⟩ := by
  decide

end Nova
